import Mathlib

deriving instance DecidableEq for Except

/-!
Shallow embedding of the credential and access-control core of the
Secure-Notes service (src/main.py): password verification (bcrypt),
JWT issuance/validation, registration/login, and the owner-scoped
note CRUD endpoints backed by a MongoDB collection, modelled here as a
list of records with Mongo's find-one / update-one / delete-one
first-match semantics.

Conventions of the embedding:
- timestamps are `Nat` seconds (JWT claims are encoded as integer
  seconds by PyJWT, so this granularity matches the wire format);
- `datetime.utcnow()` is passed in as an explicit `now : Nat` argument;
- a raised `HTTPException(status, detail)` is an `Except.error` carrying
  an `HTTPError`;
- the external bcrypt library is modelled by a `BcryptImpl` record: its
  `checkpw` raises `ValueError` when the stored hash does not parse as a
  bcrypt hash (invalid salt) and otherwise compares the password against
  the hash;
- the external PyJWT library is modelled symbolically: a token is its
  decoded payload together with the key it was signed with; `jwt.decode`
  fails on a key mismatch (bad signature), on a structurally malformed
  token, or when `exp <= now` (PyJWT's `_validate_exp` check);
- MongoDB's `_id` (an ObjectId, rendered as a 24-hex-character string)
  is the `oid` field of a note record; freshness of ids assigned by
  `insert_one` is a hypothesis where a theorem needs it;
- `hash_password` calls `bcrypt.gensalt()`, which is randomized, so the
  resulting hash string is passed to `register_user` as a parameter.
-/

namespace SecureNotes

/-- An `HTTPException(status_code, detail)` as observable by the client. -/
structure HTTPError where
  status : Nat
  detail : String
deriving DecidableEq, Repr

/-- `str(e)` for a starlette `HTTPException`: `f"{e.status_code}: {e.detail}"`. -/
def excStr (e : HTTPError) : String := toString e.status ++ ": " ++ e.detail

/-- The only exception kind the bcrypt model raises (`ValueError`). -/
inductive PyError where
  | valueError
deriving DecidableEq, Repr

/-- Model of the external bcrypt library: which hash strings parse as
well-formed bcrypt hashes (valid salt), and which (password, hash) pairs
match under `hashpw`-and-compare. -/
structure BcryptImpl where
  wellFormed : String → Bool
  pwMatches : String → String → Bool

/-- `bcrypt.checkpw(password, hashed)`: raises `ValueError` (invalid
salt) when `hashed` is not a well-formed bcrypt hash, otherwise returns
whether the password matches. -/
def checkpw (bc : BcryptImpl) (password hashed : String) : Except PyError Bool :=
  if bc.wellFormed hashed then .ok (bc.pwMatches password hashed) else .error .valueError

/-- `verify_password` (src/main.py line 92): delegates to `bcrypt.checkpw`;
any exception propagates to the caller. -/
def verify_password (bc : BcryptImpl) (password hashed_password : String) :
    Except PyError Bool :=
  checkpw bc password hashed_password

/-- `JWT_EXPIRATION_HOURS = 24` (src/main.py line 26). -/
def JWT_EXPIRATION_HOURS : Nat := 24

/-- The decoded claim set of a JWT produced or checked by this service:
`sub` (absent when the payload lacks the claim), `exp`, `iat`. -/
structure JwtPayload where
  sub : Option String
  exp : Nat
  iat : Nat
deriving DecidableEq, Repr

/-- A bearer token string, modelled symbolically: either a well-formed
JWS whose payload and signing key are recoverable, or a structurally
malformed string. -/
inductive Token where
  | signed (payload : JwtPayload) (key : String)
  | malformed (raw : String)
deriving DecidableEq, Repr

/-- The PyJWT errors relevant here; all are subclasses of `jwt.PyJWTError`. -/
inductive PyJWTError where
  | invalidSignature
  | expiredSignature
  | decodeError
deriving DecidableEq, Repr

/-- `jwt.decode(token, key, algorithms=[...])`: fails on a malformed
token, on a signature made with a different key, and on expiry; PyJWT's
`_validate_exp` raises `ExpiredSignatureError` when `exp <= now`. -/
def jwt_decode (tok : Token) (key : String) (now : Nat) : Except PyJWTError JwtPayload :=
  match tok with
  | .malformed _ => .error .decodeError
  | .signed p k =>
    if k = key then
      if p.exp ≤ now then .error .expiredSignature else .ok p
    else .error .invalidSignature

/-- `create_jwt_token` (src/main.py lines 95-101): payload
`{sub: username, exp: now + 24h, iat: now}` signed with the process key. -/
def create_jwt_token (username : String) (now : Nat) (key : String) : Token :=
  .signed ⟨some username, now + JWT_EXPIRATION_HOURS * 3600, now⟩ key

/-- `verify_jwt_token` (src/main.py lines 103-117): decodes the token;
a missing `sub` claim raises 401 "Invalid token" (an `HTTPException`,
which the `except jwt.PyJWTError` clause does not catch, so it
propagates); every `PyJWTError` also becomes 401 "Invalid token". -/
def verify_jwt_token (tok : Token) (key : String) (now : Nat) : Except HTTPError String :=
  match jwt_decode tok key now with
  | .error _ => .error ⟨401, "Invalid token"⟩
  | .ok p =>
    match p.sub with
    | none => .error ⟨401, "Invalid token"⟩
    | some username => .ok username

/-- `get_current_user` (src/main.py lines 119-120): just
`verify_jwt_token` on the presented bearer credentials. -/
def get_current_user (tok : Token) (key : String) (now : Nat) : Except HTTPError String :=
  verify_jwt_token tok key now

/-- A document of the `users` collection (src/main.py lines 159-163). -/
structure UserRec where
  username : String
  password : String
  created_at : Nat
deriving DecidableEq, Repr

/-- A document of the `notes` collection (src/main.py lines 231-239):
`oid` is the `_id` ObjectId rendered as its 24-hex string. -/
structure NoteRec where
  oid : String
  title : String
  encrypted_content : String
  salt : String
  iv : String
  username : String
  created_at : Nat
  updated_at : Nat
deriving DecidableEq, Repr

/-- The MongoDB state: the `users` and `notes` collections, as lists in
store order (matching Mongo's first-match semantics for `find_one`,
`update_one`, `delete_one`). -/
structure DB where
  users : List UserRec
  notes : List NoteRec
deriving DecidableEq, Repr

/-- Request body of `POST /api/auth/register` (src/main.py lines 52-54). -/
structure UserCreate where
  username : String
  password : String
deriving DecidableEq, Repr

/-- Request body of `POST /api/auth/login` (src/main.py lines 56-58). -/
structure UserLogin where
  username : String
  password : String
deriving DecidableEq, Repr

/-- Response model of register/login (src/main.py lines 60-63). -/
structure TokenResponse where
  access_token : Token
  token_type : String
  username : String
deriving DecidableEq, Repr

/-- Request body of `POST /api/notes` (src/main.py lines 65-69). -/
structure NoteCreate where
  title : String
  encrypted_content : String
  salt : String
  iv : String
deriving DecidableEq, Repr

/-- Response model for note endpoints (src/main.py lines 71-79). -/
structure NoteResponse where
  id : String
  title : String
  encrypted_content : String
  salt : String
  iv : String
  created_at : Nat
  updated_at : Nat
  username : String
deriving DecidableEq, Repr

/-- Request body of `PUT /api/notes/{id}` (src/main.py lines 81-85):
every field optional, `None` meaning absent. -/
structure NoteUpdate where
  title : Option String
  encrypted_content : Option String
  salt : Option String
  iv : Option String
deriving DecidableEq, Repr

/-- `note["id"] = str(note["_id"]); note.pop("_id"); NoteResponse(**note)`. -/
def noteToResponse (n : NoteRec) : NoteResponse :=
  ⟨n.oid, n.title, n.encrypted_content, n.salt, n.iv, n.created_at, n.updated_at, n.username⟩

/-- `register_user` (src/main.py lines 146-178): 400 "Username already
exists" when the username is taken (note the `except HTTPException:
raise` clause lets this pass through unwrapped); otherwise inserts the
new user document and returns a `TokenResponse` with a fresh JWT. The
randomized bcrypt hash of the password is the `hashed` parameter. -/
def register_user (u : UserCreate) (hashed : String) (now : Nat) (key : String)
    (db : DB) : Except HTTPError TokenResponse × DB :=
  match db.users.find? (fun r => r.username == u.username) with
  | some _ => (.error ⟨400, "Username already exists"⟩, db)
  | none =>
    (.ok ⟨create_jwt_token u.username now key, "bearer", u.username⟩,
     { db with users := db.users ++ [⟨u.username, hashed, now⟩] })

/-- `login_user` (src/main.py lines 186-216): 401 "Invalid username or
password" both when the username is absent and when password
verification returns false (the `except HTTPException: raise` clause
lets the 401 through unwrapped); an exception raised by
`verify_password` (malformed stored hash) is caught by the
`except Exception` clause and becomes 500 "Login failed". -/
def login_user (u : UserLogin) (bc : BcryptImpl) (now : Nat) (key : String)
    (db : DB) : Except HTTPError TokenResponse :=
  match db.users.find? (fun r => r.username == u.username) with
  | none => .error ⟨401, "Invalid username or password"⟩
  | some dbUser =>
    match verify_password bc u.password dbUser.password with
    | .error _ => .error ⟨500, "Login failed"⟩
    | .ok false => .error ⟨401, "Invalid username or password"⟩
    | .ok true => .ok ⟨create_jwt_token u.username now key, "bearer", u.username⟩

/-- Hex-digit test used by `bson.ObjectId`'s string validation. -/
def isHexChar (c : Char) : Bool :=
  c.isDigit || ('a' ≤ c && c ≤ 'f') || ('A' ≤ c && c ≤ 'F')

/-- `ObjectId(note_id)` succeeds exactly on 24-character hex strings;
anything else raises `InvalidId`, caught by the bare `except:` around
the conversion in each note endpoint. -/
def isValidObjectId (s : String) : Bool :=
  s.length == 24 && s.data.all isHexChar

/-- The 400 raised when `ObjectId(note_id)` fails (src/main.py
lines 266-267, 285-286, 319-320). -/
def invalidIdError : HTTPError := ⟨400, "Invalid note ID format"⟩

/-- The 404 the endpoints raise when the owner-scoped lookup finds
nothing (src/main.py lines 273, 305, 326). -/
def noteNotFound : HTTPError := ⟨404, "Note not found"⟩

/-- The note endpoints raise their 404 inside a `try` whose
`except Exception as e` clause catches it (FastAPI's `HTTPException`
subclasses `Exception`) and re-raises
`HTTPException(status_code=500, detail=str(e))`; this is what the
client observes. -/
def wrapped (e : HTTPError) : HTTPError := ⟨500, excStr e⟩

/-- The Mongo filter `{"_id": ObjectId(note_id), "username": current_user}`
used by `find_one` / `update_one` / `delete_one` in the note endpoints. -/
def noteFilter (note_id current_user : String) (m : NoteRec) : Bool :=
  m.oid == note_id && m.username == current_user

/-- `create_note` (src/main.py lines 228-246): inserts the document with
`username = current_user`, `created_at = updated_at = now`; `newId` is
the ObjectId the store assigns to the inserted document. -/
def create_note (note : NoteCreate) (current_user : String) (now : Nat)
    (newId : String) (db : DB) : Except HTTPError NoteResponse × DB :=
  let n : NoteRec :=
    ⟨newId, note.title, note.encrypted_content, note.salt, note.iv, current_user, now, now⟩
  (.ok (noteToResponse n), { db with notes := db.notes ++ [n] })

/-- `get_notes` (src/main.py lines 248-260): `find({"username": current_user})`,
in store order. -/
def get_notes (current_user : String) (db : DB) : List NoteResponse :=
  (db.notes.filter (fun m => m.username == current_user)).map noteToResponse

/-- `get_note` (src/main.py lines 262-279): 400 on a malformed id before
any lookup; otherwise `find_one({"_id": oid, "username": current_user})`;
an empty result raises 404, which the `except Exception` clause rewraps
as `wrapped noteNotFound`. -/
def get_note (note_id current_user : String) (db : DB) : Except HTTPError NoteResponse :=
  if isValidObjectId note_id then
    match db.notes.find? (noteFilter note_id current_user) with
    | none => .error (wrapped noteNotFound)
    | some n => .ok (noteToResponse n)
  else .error invalidIdError

/-- The `$set` document built by `update_note` (src/main.py lines
289-297): always `updated_at = now`, plus exactly the request fields
that are not `None`. -/
def applySet (nu : NoteUpdate) (now : Nat) (n : NoteRec) : NoteRec :=
  { n with
    updated_at := now
    title := nu.title.getD n.title
    encrypted_content := nu.encrypted_content.getD n.encrypted_content
    salt := nu.salt.getD n.salt
    iv := nu.iv.getD n.iv }

/-- Mongo `update_one`: applies `f` to the first document matching `p`,
leaving everything else in place. -/
def updateFirst (p : NoteRec → Bool) (f : NoteRec → NoteRec) : List NoteRec → List NoteRec
  | [] => []
  | x :: xs => if p x then f x :: xs else x :: updateFirst p f xs

/-- `update_note` (src/main.py lines 281-313): 400 on a malformed id
before any lookup; `update_one` with the owner-scoped filter; a zero
matched count raises 404, rewrapped to 500 by the `except Exception`
clause; otherwise the endpoint re-reads the document with `find_one`
and returns it. (If that re-read came back `None`, `note["id"]` would
raise `TypeError: NoneType object is not subscriptable`, rewrapped to a
500 — unreachable in this sequential model.) -/
def update_note (note_id : String) (note_update : NoteUpdate) (current_user : String)
    (now : Nat) (db : DB) : Except HTTPError NoteResponse × DB :=
  if isValidObjectId note_id then
    match db.notes.find? (noteFilter note_id current_user) with
    | none => (.error (wrapped noteNotFound), db)
    | some _ =>
      let notes2 := updateFirst (noteFilter note_id current_user) (applySet note_update now) db.notes
      match notes2.find? (noteFilter note_id current_user) with
      | some n => (.ok (noteToResponse n), { db with notes := notes2 })
      | none => (.error ⟨500, "NoneType object is not subscriptable"⟩, { db with notes := notes2 })
  else (.error invalidIdError, db)

/-- `delete_note` (src/main.py lines 315-330): 400 on a malformed id
before any lookup; `delete_one` with the owner-scoped filter; a zero
deleted count raises 404, rewrapped to 500 by the `except Exception`
clause. -/
def delete_note (note_id current_user : String) (db : DB) : Except HTTPError String × DB :=
  if isValidObjectId note_id then
    match db.notes.find? (noteFilter note_id current_user) with
    | none => (.error (wrapped noteNotFound), db)
    | some _ =>
      (.ok "Note deleted successfully",
       { db with notes := db.notes.eraseP (noteFilter note_id current_user) })
  else (.error invalidIdError, db)


/-- C2 (code bug, concrete evaluation): at a well-formed id that is
absent from the store, and equally at one that exists but belongs to a
different owner, `get_note`/`update_note`/`delete_note` raise their 404
inside the `try` whose `except Exception` clause rewraps it, so the
client observes HTTP 500 with detail "404: Note not found" — not the
404 `NotFound` outcome the code itself constructs.  The two failure
cases are still observably identical, as the claim states. -/
theorem notfound_rewrapped_as_500 :
    get_note "000000000000000000000000" "alice" (DB.mk [] [])
      = .error ⟨500, "404: Note not found"⟩
    ∧ get_note "000000000000000000000000" "alice"
        (DB.mk [] [NoteRec.mk "000000000000000000000000" "t" "c" "s" "i" "bob" 0 0])
      = .error ⟨500, "404: Note not found"⟩
    ∧ update_note "000000000000000000000000" (NoteUpdate.mk none none none none) "alice" 5
        (DB.mk [] [])
      = (.error ⟨500, "404: Note not found"⟩, DB.mk [] [])
    ∧ update_note "000000000000000000000000" (NoteUpdate.mk none none none none) "alice" 5
        (DB.mk [] [NoteRec.mk "000000000000000000000000" "t" "c" "s" "i" "bob" 0 0])
      = (.error ⟨500, "404: Note not found"⟩,
         DB.mk [] [NoteRec.mk "000000000000000000000000" "t" "c" "s" "i" "bob" 0 0])
    ∧ delete_note "000000000000000000000000" "alice" (DB.mk [] [])
      = (.error ⟨500, "404: Note not found"⟩, DB.mk [] [])
    ∧ delete_note "000000000000000000000000" "alice"
        (DB.mk [] [NoteRec.mk "000000000000000000000000" "t" "c" "s" "i" "bob" 0 0])
      = (.error ⟨500, "404: Note not found"⟩,
         DB.mk [] [NoteRec.mk "000000000000000000000000" "t" "c" "s" "i" "bob" 0 0])
    ∧ wrapped noteNotFound ≠ noteNotFound := by
  decide

/-- C3: a syntactically invalid note id is rejected by all three of
`get_note`, `update_note` and `delete_note` with the same 400
"Invalid note ID format" outcome, distinct from both the 404 the code
constructs for a missing note and the rewrapped 500 the client actually
observes; the result and the store are independent of the store
contents, so the owner-scoped lookup is never reached. -/
theorem malformed_id_uniform (id u : String) (nu : NoteUpdate) (t : Nat) (db : DB)
    (h : isValidObjectId id = false) :
    get_note id u db = .error invalidIdError
    ∧ update_note id nu u t db = (.error invalidIdError, db)
    ∧ delete_note id u db = (.error invalidIdError, db)
    ∧ invalidIdError ≠ noteNotFound
    ∧ invalidIdError ≠ wrapped noteNotFound := by
  refine ⟨?_, ?_, ?_, by decide, by decide⟩ <;>
    simp [get_note, update_note, delete_note, h]

/-- C3 witness at a concrete malformed id. -/
theorem malformed_id_uniform_witness :
    isValidObjectId "xyz" = false
    ∧ (get_note "xyz" "alice" (DB.mk [] []) = .error invalidIdError
       ∧ update_note "xyz" (NoteUpdate.mk none none none none) "alice" 0 (DB.mk [] [])
           = (.error invalidIdError, DB.mk [] [])
       ∧ delete_note "xyz" "alice" (DB.mk [] []) = (.error invalidIdError, DB.mk [] [])
       ∧ invalidIdError ≠ noteNotFound
       ∧ invalidIdError ≠ wrapped noteNotFound) :=
  ⟨by decide,
   malformed_id_uniform "xyz" "alice" (NoteUpdate.mk none none none none) 0 (DB.mk [] [])
     (by decide)⟩

/-- C4 counterexample: with a bcrypt model on which the hash string
"corrupt" does not parse (the behaviour of the real bcrypt library,
whose `checkpw` raises `ValueError` on an invalid salt), `verify` does
NOT return false — it raises — and login against an identity whose
stored hash is "corrupt" does NOT fail with the 401 `InvalidCredentials`
outcome. -/
theorem verify_malformed_cex :
    ¬ (verify_password (BcryptImpl.mk (fun s => s == "wf") (fun _ _ => true)) "pw" "corrupt"
        = .ok false)
    ∧ ¬ (login_user (UserLogin.mk "alice" "pw")
          (BcryptImpl.mk (fun s => s == "wf") (fun _ _ => true)) 0 "k"
          (DB.mk [UserRec.mk "alice" "corrupt" 0] [])
        = .error ⟨401, "Invalid username or password"⟩) := by
  decide

/-- C4 (amended): for every malformed (non-well-formed) stored hash,
`verify_password` raises `ValueError` rather than returning false, and a
login against an identity whose stored hash is that malformed string is
caught by the `except Exception` clause and fails with the internal
error 500 "Login failed", not with `InvalidCredentials`. -/
theorem verify_malformed_raises (bc : BcryptImpl) (pw h uname lpw key : String)
    (now creAt : Nat) (db : DB)
    (hwf : bc.wellFormed h = false)
    (hfind : db.users.find? (fun r => r.username == uname) = some (UserRec.mk uname h creAt)) :
    verify_password bc pw h = .error .valueError
    ∧ login_user (UserLogin.mk uname lpw) bc now key db = .error ⟨500, "Login failed"⟩ := by
  constructor
  · simp [verify_password, checkpw, hwf]
  · simp [login_user, hfind, verify_password, checkpw, hwf]

/-- C4 witness at concrete inputs. -/
theorem verify_malformed_raises_witness :
    (BcryptImpl.mk (fun s => s == "wf") (fun _ _ => true)).wellFormed "corrupt" = false
    ∧ (DB.mk [UserRec.mk "alice" "corrupt" 0] []).users.find?
        (fun r => r.username == "alice") = some (UserRec.mk "alice" "corrupt" 0)
    ∧ verify_password (BcryptImpl.mk (fun s => s == "wf") (fun _ _ => true)) "pw" "corrupt"
        = .error .valueError
    ∧ login_user (UserLogin.mk "alice" "pw")
        (BcryptImpl.mk (fun s => s == "wf") (fun _ _ => true)) 0 "k"
        (DB.mk [UserRec.mk "alice" "corrupt" 0] [])
      = .error ⟨500, "Login failed"⟩ :=
  ⟨by decide, by decide,
   (verify_malformed_raises (BcryptImpl.mk (fun s => s == "wf") (fun _ _ => true))
     "pw" "corrupt" "alice" "pw" "k" 0 0 (DB.mk [UserRec.mk "alice" "corrupt" 0] [])
     (by decide) (by decide)).1,
   (verify_malformed_raises (BcryptImpl.mk (fun s => s == "wf") (fun _ _ => true))
     "pw" "corrupt" "alice" "pw" "k" 0 0 (DB.mk [UserRec.mk "alice" "corrupt" 0] [])
     (by decide) (by decide)).2⟩

/-- C5: credential-failure indistinguishability: a login with an absent
username and a login with an existing username (whose stored hash is
well-formed) but a non-matching password produce the very same generic
401 "Invalid username or password" outcome. -/
theorem login_indistinguishable (bc : BcryptImpl) (db : DB) (u1 p1 u2 p2 key : String)
    (now : Nat) (dbu : UserRec)
    (h1 : db.users.find? (fun r => r.username == u1) = none)
    (h2 : db.users.find? (fun r => r.username == u2) = some dbu)
    (hwf : bc.wellFormed dbu.password = true)
    (hm : bc.pwMatches p2 dbu.password = false) :
    login_user (UserLogin.mk u1 p1) bc now key db
      = .error ⟨401, "Invalid username or password"⟩
    ∧ login_user (UserLogin.mk u2 p2) bc now key db
      = .error ⟨401, "Invalid username or password"⟩
    ∧ login_user (UserLogin.mk u1 p1) bc now key db
      = login_user (UserLogin.mk u2 p2) bc now key db := by
  have e1 : login_user (UserLogin.mk u1 p1) bc now key db
      = .error ⟨401, "Invalid username or password"⟩ := by
    simp [login_user, h1]
  have e2 : login_user (UserLogin.mk u2 p2) bc now key db
      = .error ⟨401, "Invalid username or password"⟩ := by
    simp [login_user, h2, verify_password, checkpw, hwf, hm]
  exact ⟨e1, e2, e1.trans e2.symm⟩

/-- C5 witness at concrete inputs. -/
theorem login_indistinguishable_witness :
    (DB.mk [UserRec.mk "bob" "wf" 0] []).users.find? (fun r => r.username == "alice") = none
    ∧ (DB.mk [UserRec.mk "bob" "wf" 0] []).users.find? (fun r => r.username == "bob")
        = some (UserRec.mk "bob" "wf" 0)
    ∧ (BcryptImpl.mk (fun s => s == "wf") (fun _ _ => false)).wellFormed
        (UserRec.mk "bob" "wf" 0).password = true
    ∧ (BcryptImpl.mk (fun s => s == "wf") (fun _ _ => false)).pwMatches "pw2"
        (UserRec.mk "bob" "wf" 0).password = false
    ∧ (login_user (UserLogin.mk "alice" "pw1")
          (BcryptImpl.mk (fun s => s == "wf") (fun _ _ => false)) 0 "k"
          (DB.mk [UserRec.mk "bob" "wf" 0] [])
        = .error ⟨401, "Invalid username or password"⟩
       ∧ login_user (UserLogin.mk "bob" "pw2")
          (BcryptImpl.mk (fun s => s == "wf") (fun _ _ => false)) 0 "k"
          (DB.mk [UserRec.mk "bob" "wf" 0] [])
        = .error ⟨401, "Invalid username or password"⟩
       ∧ login_user (UserLogin.mk "alice" "pw1")
          (BcryptImpl.mk (fun s => s == "wf") (fun _ _ => false)) 0 "k"
          (DB.mk [UserRec.mk "bob" "wf" 0] [])
        = login_user (UserLogin.mk "bob" "pw2")
          (BcryptImpl.mk (fun s => s == "wf") (fun _ _ => false)) 0 "k"
          (DB.mk [UserRec.mk "bob" "wf" 0] [])) :=
  ⟨by decide, by decide, by decide, by decide,
   login_indistinguishable (BcryptImpl.mk (fun s => s == "wf") (fun _ _ => false))
     (DB.mk [UserRec.mk "bob" "wf" 0] []) "alice" "pw1" "bob" "pw2" "k" 0
     (UserRec.mk "bob" "wf" 0) (by decide) (by decide) (by decide) (by decide)⟩



/-- Conclusion of the owner-scoping claim: with `N` the note created by
`A`, the creation result carries owner `A`; any note with the fresh id
is owned by `A`; `get` returns it for `A` but fails for `B`; `list` for
`B` excludes it; `update`/`delete` authenticated as `B` fail and leave
the store untouched; and no `update_note` call ever changes any note's
id, owner or creation time. -/
def C1Concl (A B : String) (db : DB) (nc : NoteCreate) (nowc t : Nat)
    (newId : String) (nu : NoteUpdate) : Prop :=
  (create_note nc A nowc newId db).1
      = .ok ⟨newId, nc.title, nc.encrypted_content, nc.salt, nc.iv, nowc, nowc, A⟩
  ∧ (∀ m ∈ ((create_note nc A nowc newId db).2).notes, m.oid = newId → m.username = A)
  ∧ get_note newId A (create_note nc A nowc newId db).2
      = .ok ⟨newId, nc.title, nc.encrypted_content, nc.salt, nc.iv, nowc, nowc, A⟩
  ∧ get_note newId B (create_note nc A nowc newId db).2 = .error (wrapped noteNotFound)
  ∧ (∀ r ∈ get_notes B (create_note nc A nowc newId db).2, r.id ≠ newId)
  ∧ update_note newId nu B t (create_note nc A nowc newId db).2
      = (.error (wrapped noteNotFound), (create_note nc A nowc newId db).2)
  ∧ delete_note newId B (create_note nc A nowc newId db).2
      = (.error (wrapped noteNotFound), (create_note nc A nowc newId db).2)
  ∧ (∀ id2 nu2 u2 t2 d2,
      ((update_note id2 nu2 u2 t2 d2).2).notes.map (fun m => (m.oid, m.username, m.created_at))
        = d2.notes.map (fun m => (m.oid, m.username, m.created_at)))

/-- `$set` never touches `_id`, `username` or `created_at`. -/
theorem applySet_id_owner_created (nu : NoteUpdate) (now : Nat) (n : NoteRec) :
    (applySet nu now n).oid = n.oid ∧ (applySet nu now n).username = n.username ∧
      (applySet nu now n).created_at = n.created_at :=
  ⟨rfl, rfl, rfl⟩

theorem updateFirst_map_eq {β : Type} (g : NoteRec → β) (p : NoteRec → Bool)
    (f : NoteRec → NoteRec) (hg : ∀ a, g (f a) = g a) (l : List NoteRec) :
    (updateFirst p f l).map g = l.map g := by
  induction l with
  | nil => rfl
  | cons x xs ih =>
    cases hpx : p x with
    | true => simp [updateFirst, hpx, hg]
    | false => simp [updateFirst, hpx, ih]

theorem find?_updateFirst (p : NoteRec → Bool) (f : NoteRec → NoteRec) (l : List NoteRec)
    (n : NoteRec) (hfind : l.find? p = some n) (hpf : p (f n) = true) :
    (updateFirst p f l).find? p = some (f n) := by
  induction l with
  | nil => simp at hfind
  | cons x xs ih =>
    cases hpx : p x with
    | true =>
      rw [List.find?_cons_of_pos _ hpx] at hfind
      injection hfind with h
      subst h
      simp [updateFirst, hpx, List.find?_cons_of_pos _ hpf]
    | false =>
      have hnx : ¬ p x = true := by simp [hpx]
      rw [List.find?_cons_of_neg _ hnx] at hfind
      simp [updateFirst, hpx, List.find?_cons_of_neg _ hnx, ih hfind]

theorem mem_updateFirst_of_neg (p : NoteRec → Bool) (f : NoteRec → NoteRec)
    (l : List NoteRec) (m : NoteRec) (hm : m ∈ l) (hpm : p m = false) :
    m ∈ updateFirst p f l := by
  induction l with
  | nil => simp at hm
  | cons x xs ih =>
    rcases List.mem_cons.mp hm with h | h
    · subst h
      simp [updateFirst, hpm]
    · cases hpx : p x with
      | true => simp [updateFirst, hpx, List.mem_cons_of_mem _ h]
      | false =>
        simp only [updateFirst, hpx, Bool.false_eq_true, if_false]
        exact List.mem_cons_of_mem _ (ih h)

/-- C1: Owner-scoping invariant: a note's owner is set at creation to the
creating identity and never changed; every retrieval, mutation and
deletion filters by owner as well as id, so a note created by `A` is
returned by get/list only to `A`, is excluded from `B`'s list, and is
never mutated or deleted by a request authenticated as `B`. -/
theorem owner_scoping (A B : String) (db : DB) (nc : NoteCreate) (nowc t : Nat)
    (newId : String) (nu : NoteUpdate) (hAB : A ≠ B)
    (hid : isValidObjectId newId = true)
    (hfresh : ∀ m ∈ db.notes, m.oid ≠ newId) :
    C1Concl A B db nc nowc t newId nu := by
  have hold : ∀ u : String, db.notes.find? (noteFilter newId u) = none := by
    intro u
    refine List.find?_eq_none.mpr ?_
    intro m hm
    simp only [noteFilter, Bool.and_eq_true, beq_iff_eq, not_and]
    intro h1 _
    exact hfresh m hm h1
  have hdb1 : (create_note nc A nowc newId db).2
      = { db with notes := db.notes ++
          [⟨newId, nc.title, nc.encrypted_content, nc.salt, nc.iv, A, nowc, nowc⟩] } := rfl
  have hpNA : noteFilter newId A
      ⟨newId, nc.title, nc.encrypted_content, nc.salt, nc.iv, A, nowc, nowc⟩ = true := by
    simp [noteFilter]
  have hpNB : noteFilter newId B
      ⟨newId, nc.title, nc.encrypted_content, nc.salt, nc.iv, A, nowc, nowc⟩ = false := by
    simp only [noteFilter]
    simp [beq_eq_false_iff_ne, hAB]
  have hnB : ¬ noteFilter newId B
      ⟨newId, nc.title, nc.encrypted_content, nc.salt, nc.iv, A, nowc, nowc⟩ = true := by
    simp [hpNB]
  have hgetA : (db.notes ++
      [(⟨newId, nc.title, nc.encrypted_content, nc.salt, nc.iv, A, nowc, nowc⟩ : NoteRec)]).find?
        (noteFilter newId A) = some ⟨newId, nc.title, nc.encrypted_content, nc.salt, nc.iv, A, nowc, nowc⟩ := by
    rw [List.find?_append, hold A]
    simp [List.find?_cons_of_pos _ hpNA]
  have hgetB : (db.notes ++
      [(⟨newId, nc.title, nc.encrypted_content, nc.salt, nc.iv, A, nowc, nowc⟩ : NoteRec)]).find?
        (noteFilter newId B) = none := by
    rw [List.find?_append, hold B]
    simp [List.find?_cons_of_neg _ hnB]
  refine ⟨rfl, ?_, ?_, ?_, ?_, ?_, ?_, ?_⟩
  · intro m hm hoid
    rw [hdb1] at hm
    rcases List.mem_append.mp hm with h | h
    · exact absurd hoid (hfresh m h)
    · rw [List.mem_singleton.mp h]
  · rw [hdb1]
    simp [get_note, hid, hgetA, noteToResponse]
  · rw [hdb1]
    simp [get_note, hid, hgetB]
  · intro r hr
    rw [hdb1] at hr
    simp only [get_notes, List.mem_map, List.mem_filter, List.mem_append] at hr
    rcases hr with ⟨m, ⟨hm | hm, hB⟩, hr⟩
    · rw [← hr]
      exact hfresh m hm
    · rw [List.mem_singleton.mp hm] at hB
      simp only [beq_iff_eq] at hB
      exact absurd hB hAB
  · rw [hdb1]
    simp [update_note, hid, hgetB]
  · rw [hdb1]
    simp [delete_note, hid, hgetB]
  · intro id2 nu2 u2 t2 d2
    unfold update_note
    cases hv : isValidObjectId id2 with
    | false => simp
    | true =>
      simp only [if_pos hv]
      cases hf : d2.notes.find? (noteFilter id2 u2) with
      | none => simp
      | some n0 =>
        have hmap := updateFirst_map_eq (fun m => (m.oid, m.username, m.created_at))
          (noteFilter id2 u2) (applySet nu2 t2) (fun a => rfl) d2.notes
        cases hf2 : (updateFirst (noteFilter id2 u2) (applySet nu2 t2) d2.notes).find?
            (noteFilter id2 u2) with
        | none => simpa using hmap
        | some n1 => simpa using hmap

/-- C1 witness at concrete inputs. -/
theorem owner_scoping_witness :
    ("alice" : String) ≠ "bob"
    ∧ isValidObjectId "000000000000000000000000" = true
    ∧ (∀ m ∈ (DB.mk [] []).notes, m.oid ≠ "000000000000000000000000")
    ∧ C1Concl "alice" "bob" (DB.mk [] []) (NoteCreate.mk "t" "c" "s" "i") 0 1
        "000000000000000000000000" (NoteUpdate.mk none none none none) :=
  ⟨by decide, by decide, by simp,
   owner_scoping "alice" "bob" (DB.mk [] []) (NoteCreate.mk "t" "c" "s" "i") 0 1
     "000000000000000000000000" (NoteUpdate.mk none none none none)
     (by decide) (by decide) (by simp)⟩


/-- C6: a token issued at `t0` for `username` carries subject =
`username` and expiry = `t0` + 24 hours; validation with the same key
succeeds with that username at every instant strictly before the expiry
instant and fails with the 401 "Invalid token" outcome at and after it
(PyJWT expires a token exactly when `exp <= now`). -/
theorem token_lifecycle (u key : String) (t0 t : Nat) :
    JWT_EXPIRATION_HOURS = 24
    ∧ create_jwt_token u t0 key
        = .signed (JwtPayload.mk (some u) (t0 + JWT_EXPIRATION_HOURS * 3600) t0) key
    ∧ (t < t0 + JWT_EXPIRATION_HOURS * 3600 →
        verify_jwt_token (create_jwt_token u t0 key) key t = .ok u)
    ∧ (t0 + JWT_EXPIRATION_HOURS * 3600 ≤ t →
        verify_jwt_token (create_jwt_token u t0 key) key t = .error ⟨401, "Invalid token"⟩) := by
  refine ⟨rfl, rfl, ?_, ?_⟩
  · intro hlt
    have hne : ¬ (t0 + JWT_EXPIRATION_HOURS * 3600 ≤ t) := by omega
    simp [verify_jwt_token, jwt_decode, create_jwt_token, hne]
  · intro hge
    simp [verify_jwt_token, jwt_decode, create_jwt_token, hge]

/-- C6 witness: a token issued at time 0 validates at 86399 and is
rejected at 86400 (= 24 hours) and after. -/
theorem token_lifecycle_witness :
    (86399 < 0 + JWT_EXPIRATION_HOURS * 3600
      ∧ verify_jwt_token (create_jwt_token "alice" 0 "k") "k" 86399 = .ok "alice")
    ∧ (0 + JWT_EXPIRATION_HOURS * 3600 ≤ 86400
      ∧ verify_jwt_token (create_jwt_token "alice" 0 "k") "k" 86400
          = .error ⟨401, "Invalid token"⟩) :=
  ⟨⟨by decide, (token_lifecycle "alice" "k" 0 86399).2.2.1 (by decide)⟩,
   ⟨by decide, (token_lifecycle "alice" "k" 0 86400).2.2.2 (by decide)⟩⟩

/-- C7: round-trip: creating a note and immediately retrieving it by the
returned id, authenticated as the same owner, yields a response whose
title, encrypted_content, salt and iv are exactly the strings supplied
at creation — the core never transforms the opaque payload fields. -/
theorem note_round_trip (nc : NoteCreate) (owner : String) (now : Nat) (newId : String)
    (db : DB) (hid : isValidObjectId newId = true)
    (hfresh : ∀ m ∈ db.notes, m.oid ≠ newId) :
    (create_note nc owner now newId db).1
      = .ok ⟨newId, nc.title, nc.encrypted_content, nc.salt, nc.iv, now, now, owner⟩
    ∧ get_note newId owner (create_note nc owner now newId db).2
      = .ok ⟨newId, nc.title, nc.encrypted_content, nc.salt, nc.iv, now, now, owner⟩ := by
  have hold : db.notes.find? (noteFilter newId owner) = none := by
    refine List.find?_eq_none.mpr ?_
    intro m hm
    simp only [noteFilter, Bool.and_eq_true, beq_iff_eq, not_and]
    intro h1 _
    exact hfresh m hm h1
  have hdb1 : (create_note nc owner now newId db).2
      = { db with notes := db.notes ++
          [⟨newId, nc.title, nc.encrypted_content, nc.salt, nc.iv, owner, now, now⟩] } := rfl
  have hpN : noteFilter newId owner
      ⟨newId, nc.title, nc.encrypted_content, nc.salt, nc.iv, owner, now, now⟩ = true := by
    simp [noteFilter]
  have hget : (db.notes ++
      [(⟨newId, nc.title, nc.encrypted_content, nc.salt, nc.iv, owner, now, now⟩ : NoteRec)]).find?
        (noteFilter newId owner)
      = some ⟨newId, nc.title, nc.encrypted_content, nc.salt, nc.iv, owner, now, now⟩ := by
    rw [List.find?_append, hold]
    simp [List.find?_cons_of_pos _ hpN]
  constructor
  · rfl
  · rw [hdb1]
    simp [get_note, hid, hget, noteToResponse]

/-- C7 witness at concrete inputs. -/
theorem note_round_trip_witness :
    isValidObjectId "0123456789abcdef01234567" = true
    ∧ (∀ m ∈ (DB.mk [] []).notes, m.oid ≠ "0123456789abcdef01234567")
    ∧ ((create_note (NoteCreate.mk "T" "CT" "S" "IV") "alice" 7 "0123456789abcdef01234567"
          (DB.mk [] [])).1
        = .ok ⟨"0123456789abcdef01234567", "T", "CT", "S", "IV", 7, 7, "alice"⟩
       ∧ get_note "0123456789abcdef01234567" "alice"
          (create_note (NoteCreate.mk "T" "CT" "S" "IV") "alice" 7 "0123456789abcdef01234567"
            (DB.mk [] [])).2
        = .ok ⟨"0123456789abcdef01234567", "T", "CT", "S", "IV", 7, 7, "alice"⟩) :=
  ⟨by decide, by simp,
   note_round_trip (NoteCreate.mk "T" "CT" "S" "IV") "alice" 7 "0123456789abcdef01234567"
     (DB.mk [] []) (by decide) (by simp)⟩

/-- C8: partial-update frame property: a successful `update_note` on the
first store document matching the owner-scoped filter returns exactly
the supplied fields (each omitted field keeping its prior value
bit-for-bit), preserves id, owner and created_at, sets updated_at to the
request time (also when the supplied field set is empty), rewrites the
store by updating only that document, and keeps every non-matching
document in the store untouched. -/
theorem update_frame (id u : String) (nu : NoteUpdate) (now : Nat) (db : DB) (n : NoteRec)
    (hid : isValidObjectId id = true)
    (hfind : db.notes.find? (noteFilter id u) = some n) :
    (update_note id nu u now db).1
      = .ok ⟨n.oid, nu.title.getD n.title, nu.encrypted_content.getD n.encrypted_content,
             nu.salt.getD n.salt, nu.iv.getD n.iv, n.created_at, now, n.username⟩
    ∧ (update_note id nu u now db).2
      = { db with notes := updateFirst (noteFilter id u) (applySet nu now) db.notes }
    ∧ (∀ m ∈ db.notes, noteFilter id u m = false →
        m ∈ ((update_note id nu u now db).2).notes) := by
  have hpn : noteFilter id u n = true := List.find?_some hfind
  have hpfn : noteFilter id u (applySet nu now n) = true := hpn
  have hfind2 := find?_updateFirst (noteFilter id u) (applySet nu now) db.notes n hfind hpfn
  have hres : update_note id nu u now db
      = (.ok (noteToResponse (applySet nu now n)),
         { db with notes := updateFirst (noteFilter id u) (applySet nu now) db.notes }) := by
    simp [update_note, hid, hfind, hfind2]
  refine ⟨?_, ?_, ?_⟩
  · rw [hres]
    rfl
  · rw [hres]
  · intro m hm hpm
    rw [hres]
    exact mem_updateFirst_of_neg (noteFilter id u) (applySet nu now) db.notes m hm hpm

/-- C8 witness: an update supplying only the title changes the title,
sets updated_at, and keeps content, salt, iv, id, owner and created_at. -/
theorem update_frame_witness :
    isValidObjectId "0123456789abcdef01234567" = true
    ∧ (DB.mk [] [NoteRec.mk "0123456789abcdef01234567" "T" "CT" "S" "IV" "alice" 3 4]).notes.find?
        (noteFilter "0123456789abcdef01234567" "alice")
      = some (NoteRec.mk "0123456789abcdef01234567" "T" "CT" "S" "IV" "alice" 3 4)
    ∧ ((update_note "0123456789abcdef01234567" (NoteUpdate.mk (some "T2") none none none)
          "alice" 9
          (DB.mk [] [NoteRec.mk "0123456789abcdef01234567" "T" "CT" "S" "IV" "alice" 3 4])).1
        = .ok ⟨"0123456789abcdef01234567", "T2", "CT", "S", "IV", 3, 9, "alice"⟩) :=
  ⟨by decide, by decide,
   ((update_frame "0123456789abcdef01234567" "alice"
      (NoteUpdate.mk (some "T2") none none none) 9
      (DB.mk [] [NoteRec.mk "0123456789abcdef01234567" "T" "CT" "S" "IV" "alice" 3 4])
      (NoteRec.mk "0123456789abcdef01234567" "T" "CT" "S" "IV" "alice" 3 4)
      (by decide) (by decide)).1)⟩

/-- C9: a successful registration inserts the new identity and returns a
`TokenResponse` whose access_token is a freshly issued JWT for the new
username, and that token validates back to the registered username while
unexpired — registration ends the call authenticated, like login. -/
theorem register_issues_token (u : UserCreate) (hashed key : String) (now t : Nat) (db : DB)
    (habs : db.users.find? (fun r => r.username == u.username) = none)
    (ht : t < now + JWT_EXPIRATION_HOURS * 3600) :
    (register_user u hashed now key db).1
      = .ok (TokenResponse.mk (create_jwt_token u.username now key) "bearer" u.username)
    ∧ verify_jwt_token (create_jwt_token u.username now key) key t = .ok u.username
    ∧ (register_user u hashed now key db).2
      = { db with users := db.users ++ [UserRec.mk u.username hashed now] } := by
  refine ⟨?_, ?_, ?_⟩
  · simp [register_user, habs]
  · have hne : ¬ (now + JWT_EXPIRATION_HOURS * 3600 ≤ t) := by omega
    simp [verify_jwt_token, jwt_decode, create_jwt_token, hne]
  · simp [register_user, habs]

/-- C9 witness at concrete inputs. -/
theorem register_issues_token_witness :
    (DB.mk [] []).users.find? (fun r => r.username == "alice") = none
    ∧ 1 < 0 + JWT_EXPIRATION_HOURS * 3600
    ∧ ((register_user (UserCreate.mk "alice" "pw") "h" 0 "k" (DB.mk [] [])).1
        = .ok (TokenResponse.mk (create_jwt_token "alice" 0 "k") "bearer" "alice")
       ∧ verify_jwt_token (create_jwt_token "alice" 0 "k") "k" 1 = .ok "alice"
       ∧ (register_user (UserCreate.mk "alice" "pw") "h" 0 "k" (DB.mk [] [])).2
        = { DB.mk [] [] with users := (DB.mk [] []).users ++ [UserRec.mk "alice" "h" 0] }) :=
  ⟨by decide, by decide,
   register_issues_token (UserCreate.mk "alice" "pw") "h" "k" 0 1 (DB.mk [] [])
     (by decide) (by decide)⟩

/-- C10: a token signed with the service key and unexpired but whose
payload lacks a `sub` claim is rejected with the same 401
"Invalid token" outcome as a token signed with a different key, an
expired token, or a structurally malformed token; and whenever
validation returns a username, that username was the token's `sub`
claim. -/
theorem missing_sub_rejected (key k2 s uok : String) (e i e2 i2 now : Nat) (tok : Token)
    (hunexp : now < e) (hforged : k2 ≠ key) (hexp2 : e2 ≤ now)
    (hok : verify_jwt_token tok key now = .ok uok) :
    verify_jwt_token (.signed (JwtPayload.mk none e i) key) key now
      = .error ⟨401, "Invalid token"⟩
    ∧ verify_jwt_token (.signed (JwtPayload.mk (some s) e i) k2) key now
      = .error ⟨401, "Invalid token"⟩
    ∧ verify_jwt_token (.signed (JwtPayload.mk (some s) e2 i2) key) key now
      = .error ⟨401, "Invalid token"⟩
    ∧ verify_jwt_token (.malformed s) key now = .error ⟨401, "Invalid token"⟩
    ∧ (∃ p k, tok = .signed p k ∧ p.sub = some uok) := by
  have hnow : ¬ (e ≤ now) := by omega
  refine ⟨?_, ?_, ?_, rfl, ?_⟩
  · simp [verify_jwt_token, jwt_decode, hnow]
  · simp [verify_jwt_token, jwt_decode, hforged]
  · simp [verify_jwt_token, jwt_decode, hexp2]
  · cases tok with
    | malformed r => simp [verify_jwt_token, jwt_decode] at hok
    | signed p k =>
      refine ⟨p, k, rfl, ?_⟩
      cases hsub : p.sub with
      | none =>
        by_cases hk : k = key
        · by_cases hle : p.exp ≤ now
          · simp [verify_jwt_token, jwt_decode, hk, hle] at hok
          · simp [verify_jwt_token, jwt_decode, hk, hle, hsub] at hok
        · simp [verify_jwt_token, jwt_decode, hk] at hok
      | some v =>
        by_cases hk : k = key
        · by_cases hle : p.exp ≤ now
          · simp [verify_jwt_token, jwt_decode, hk, hle] at hok
          · simp [verify_jwt_token, jwt_decode, hk, hle, hsub] at hok
            rw [hok]
        · simp [verify_jwt_token, jwt_decode, hk] at hok

/-- C10 witness at concrete inputs. -/
theorem missing_sub_rejected_witness :
    (5 : Nat) < 100 ∧ ("k2" : String) ≠ "k" ∧ (3 : Nat) ≤ 5
    ∧ verify_jwt_token (.signed (JwtPayload.mk (some "alice") 100 0) "k") "k" 5 = .ok "alice"
    ∧ (verify_jwt_token (.signed (JwtPayload.mk none 100 0) "k") "k" 5
        = .error ⟨401, "Invalid token"⟩
       ∧ verify_jwt_token (.signed (JwtPayload.mk (some "x") 100 0) "k2") "k" 5
        = .error ⟨401, "Invalid token"⟩
       ∧ verify_jwt_token (.signed (JwtPayload.mk (some "x") 3 0) "k") "k" 5
        = .error ⟨401, "Invalid token"⟩
       ∧ verify_jwt_token (.malformed "x") "k" 5 = .error ⟨401, "Invalid token"⟩
       ∧ (∃ p k, (Token.signed (JwtPayload.mk (some "alice") 100 0) "k") = .signed p k
            ∧ p.sub = some "alice")) :=
  ⟨by decide, by decide, by decide, by decide,
   missing_sub_rejected "k" "k2" "x" "alice" 100 0 3 0 5
     (.signed (JwtPayload.mk (some "alice") 100 0) "k")
     (by decide) (by decide) (by decide) (by decide)⟩

end SecureNotes
